import Mathlib

/-!
Shallow embedding of `doc_crawler.py` (src/index.py): a recursive website
crawler that classifies every discovered link as a downloadable document,
a page to explore, or noise, plus its batch-download helpers and its
command-line front end.  Strings are modelled by Lean `String`, Python
sets by `List String` (only membership and insertion are used), raised
Python exceptions by an explicit error type, and the out-of-scope
collaborators (HTTP transport, file persistence) by explicit oracles.
-/

namespace DocCrawler

/-- Python exceptions that the modelled code can raise. -/
inductive PyErr where
  | typeError
  | nameError
  | attributeError
  | valueError
  | unboundLocalError
  deriving DecidableEq, Repr

/-! ## Character-level utilities

The regular expressions of the source are compiled with `re.I`, so the
models lower-case their input before matching; Python's `str.lower` on
the ASCII range agrees with `Char.toLower`. -/

/-- Lower-case a character sequence (model of case-insensitive matching). -/
def lowerChars (cs : List Char) : List Char := cs.map Char.toLower

/-- Python `needle in haystack` substring test (case-sensitive). -/
def listContains (hay nd : List Char) : Bool :=
  if nd.isPrefixOf hay then true
  else
    match hay with
    | [] => false
    | _ :: t => listContains t nd

/-- Model of the regex anchor `$` (without `re.M`): a suffix match may end
either at the end of the string or just before one trailing newline, so we
strip at most one trailing `'\n'` before testing suffixes.  The argument is
the reversed character list. -/
def stripNlRev (rcs : List Char) : List Char :=
  match rcs with
  | '\n' :: t => t
  | _ => rcs

/-- The regex wildcard `.` matches any character except a newline. -/
def isWild (c : Char) : Bool := c != '\n'

/-! ## The module's compiled regular expressions -/

/-- Line 10: the raw (uncompiled) default document-suffix pattern string. -/
def WANTED_EXT : String :=
  "\\.(pdf|docx?|xlsx?|pptx?|o(d|t)[cgmpst]|csv|rtf|zip|rar|t?gz|xz)$"

/-- Suffix test for `re.compile(WANTED_EXT, re.I).search`, on the reversed,
lower-cased, `$`-adjusted character list.  The alternation of the pattern
expands to the fixed suffixes enumerated here (e.g. `o(d|t)[cgmpst]`
expands to `odc`, …, `ott`; `t?gz` to `gz` and `tgz`). -/
def wantedRev (rcs : List Char) : Bool :=
  match rcs with
  | 'f' :: 'd' :: 'p' :: '.' :: _ => true
  | 'c' :: 'o' :: 'd' :: '.' :: _ => true
  | 'x' :: 'c' :: 'o' :: 'd' :: '.' :: _ => true
  | 's' :: 'l' :: 'x' :: '.' :: _ => true
  | 'x' :: 's' :: 'l' :: 'x' :: '.' :: _ => true
  | 't' :: 'p' :: 'p' :: '.' :: _ => true
  | 'x' :: 't' :: 'p' :: 'p' :: '.' :: _ => true
  | 'c' :: 'd' :: 'o' :: '.' :: _ => true
  | 'g' :: 'd' :: 'o' :: '.' :: _ => true
  | 'm' :: 'd' :: 'o' :: '.' :: _ => true
  | 'p' :: 'd' :: 'o' :: '.' :: _ => true
  | 's' :: 'd' :: 'o' :: '.' :: _ => true
  | 't' :: 'd' :: 'o' :: '.' :: _ => true
  | 'c' :: 't' :: 'o' :: '.' :: _ => true
  | 'g' :: 't' :: 'o' :: '.' :: _ => true
  | 'm' :: 't' :: 'o' :: '.' :: _ => true
  | 'p' :: 't' :: 'o' :: '.' :: _ => true
  | 's' :: 't' :: 'o' :: '.' :: _ => true
  | 't' :: 't' :: 'o' :: '.' :: _ => true
  | 'v' :: 's' :: 'c' :: '.' :: _ => true
  | 'f' :: 't' :: 'r' :: '.' :: _ => true
  | 'p' :: 'i' :: 'z' :: '.' :: _ => true
  | 'r' :: 'a' :: 'r' :: '.' :: _ => true
  | 'z' :: 'g' :: '.' :: _ => true
  | 'z' :: 'g' :: 't' :: '.' :: _ => true
  | 'z' :: 'x' :: '.' :: _ => true
  | _ => false

/-- Model of `re.compile(WANTED_EXT, re.I).search(s)` viewed as a Boolean
(a `Match` object is truthy, `None` is falsy). -/
def wantedExtCompiled (s : String) : Bool :=
  wantedRev (stripNlRev (lowerChars s.data).reverse)

/-- Lines 11-12, `BIN_EXT`: suffix test on the reversed, lower-cased,
`$`-adjusted character list.  The leading `\.?` of the pattern is optional,
so the dot is not required; `mpe?.`, `h26.` and `m.v` contain the wildcard
`.`, which matches any character but a newline. -/
def binRev (rcs : List Char) : Bool :=
  match rcs with
  | 'g' :: 'p' :: 'j' :: _ => true
  | 'g' :: 'e' :: 'p' :: 'j' :: _ => true
  | 'g' :: 'n' :: 'p' :: _ => true
  | 'f' :: 'i' :: 'g' :: _ => true
  | 'o' :: 'c' :: 'i' :: _ => true
  | 'f' :: 'w' :: 's' :: _ => true
  | 'v' :: 'l' :: 'f' :: _ => true
  | 'e' :: 'x' :: 'e' :: _ => true
  | c :: 'e' :: 'p' :: 'm' :: _ => isWild c
  | c :: 'p' :: 'm' :: _ => isWild c
  | c :: '6' :: '2' :: 'h' :: _ => isWild c
  | 'i' :: 'v' :: 'a' :: _ => true
  | 'v' :: c :: 'm' :: _ => isWild c
  | 'p' :: 'i' :: 'z' :: _ => true
  | 'r' :: 'a' :: 'r' :: _ => true
  | 'z' :: 'g' :: _ => true
  | 'z' :: 'x' :: _ => true
  | 's' :: 'j' :: _ => true
  | _ => false

/-- Model of `BIN_EXT.search(s)` viewed as a Boolean. -/
def binExtSearch (s : String) : Bool :=
  binRev (stripNlRev (lowerChars s.data).reverse)

/-- Line 15, `RE_CONTENT_TYPE = re.compile('text/(html|css)', re.I)`:
`search` succeeds iff the string contains `text/html` or `text/css`
case-insensitively. -/
def reContentTypeSearch (s : String) : Bool :=
  listContains (lowerChars s.data) "text/html".data ||
  listContains (lowerChars s.data) "text/css".data

/-- Helper for `RE_REL_LINK`: the part after `http` / `https`.  The two
dots of `www.bbc.com` are regex wildcards. -/
def relLinkRest (cs : List Char) : Bool :=
  match cs with
  | ':' :: '/' :: '/' :: 'w' :: 'w' :: 'w' :: c1 :: 'b' :: 'b' :: 'c' :: c2 ::
      'c' :: 'o' :: 'm' :: _ => isWild c1 && isWild c2
  | _ => false

/-- Line 14, `RE_REL_LINK = re.compile('^https?://www.bbc.com', re.I)`:
anchored at the start of the string, case-insensitive. -/
def reRelLinkSearch (s : String) : Bool :=
  match lowerChars s.data with
  | 'h' :: 't' :: 't' :: 'p' :: 's' :: rest => relLinkRest rest
  | 'h' :: 't' :: 't' :: 'p' :: rest => relLinkRest rest
  | _ => false

/-! ## Link extraction

Line 13, `RE_FIND_LINKS = re.compile('(href|src)="(.*?)"|url\("?\'?(.*?)\'?"?\)', re.I)`.
`explore_page` iterates over `RE_FIND_LINKS.finditer(page_str)` and takes
`a_href.group(a_href.lastindex)`: group 2 (the quoted value) for the
`href`/`src` alternative, group 3 (the parenthesised value) for the
`url(...)` alternative.  The scanner below reproduces `finditer`'s
left-to-right, non-overlapping scan; the non-greedy `(.*?)` stops at the
first closing delimiter and cannot cross a newline. -/

/-- Case-insensitive literal prefix test (the patterns above are compiled
with `re.I`). -/
def startsWithCI (pat : String) (cs : List Char) : Bool :=
  (lowerChars pat.data).isPrefixOf (lowerChars cs)

/-- Consume the non-greedy `(.*?)"` of the `href`/`src` alternative:
the shortest run of non-newline characters up to a double quote.
Returns the captured group and the rest after the quote. -/
def takeUntilQuote (cs : List Char) : Option (List Char × List Char) :=
  match cs with
  | [] => none
  | '"' :: rest => some ([], rest)
  | '\n' :: _ => none
  | c :: rest =>
    match takeUntilQuote rest with
    | none => none
    | some (s, r) => some (c :: s, r)

/-- Try the `(href|src)="(.*?)"` alternative at the current position. -/
def matchHrefSrc (cs : List Char) : Option (List Char × List Char) :=
  if startsWithCI "href=\"" cs then takeUntilQuote (cs.drop 6)
  else if startsWithCI "src=\"" cs then takeUntilQuote (cs.drop 5)
  else none

/-- Consume the closing `\'?"?\)` of the `url(...)` alternative. -/
def urlClose (cs : List Char) : Option (List Char) :=
  match cs with
  | '\'' :: '"' :: ')' :: r => some r
  | '\'' :: ')' :: r => some r
  | '"' :: ')' :: r => some r
  | ')' :: r => some r
  | _ => none

/-- Consume the non-greedy `(.*?)` of the `url(...)` alternative: stop at
the first position where the closing `\'?"?\)` matches. -/
def scanUrlContent (cs : List Char) : Option (List Char × List Char) :=
  match urlClose cs with
  | some r => some ([], r)
  | none =>
    match cs with
    | [] => none
    | '\n' :: _ => none
    | c :: rest =>
      match scanUrlContent rest with
      | none => none
      | some (s, r) => some (c :: s, r)

/-- Try the `url\("?\'?(.*?)\'?"?\)` alternative at the current position:
`url(` then a greedy optional `"` then a greedy optional `'`. -/
def matchUrl (cs : List Char) : Option (List Char × List Char) :=
  if startsWithCI "url(" cs then
    let rest := cs.drop 4
    let rest := match rest with
      | '"' :: r => r
      | _ => rest
    let rest := match rest with
      | '\'' :: r => r
      | _ => rest
    scanUrlContent rest
  else none

/-- Left-to-right non-overlapping scan of `finditer`, with fuel bounding
the number of remaining positions (each step consumes at least one
character, so `length + 1` fuel always suffices). -/
def findLinksGo (fuel : Nat) (cs : List Char) : List String :=
  match fuel with
  | 0 => []
  | fuel + 1 =>
    match cs with
    | [] => []
    | _ :: rest =>
      match matchHrefSrc cs with
      | some (link, r) => String.mk link :: findLinksGo fuel r
      | none =>
        match matchUrl cs with
        | some (link, r) => String.mk link :: findLinksGo fuel r
        | none => findLinksGo fuel rest

/-- The list of link values produced by iterating `RE_FIND_LINKS.finditer`
over the page text and taking the last matched group of each match. -/
def extractLinks (s : String) : List String :=
  findLinksGo (s.data.length + 1) s.data

/-! ## Relative-link resolution

`urllib.parse.urljoin` is Python standard library, outside this
repository (the spec lists transport and URL plumbing as out of scope).
The model below handles absolute, scheme-relative, root-relative,
relative and empty references without dot-segment normalisation; no
claim below depends on its exact output, only on it being a function of
the page URL and the raw link. -/

/-- Scheme part of a URL including the colon (`https:` of `https://x/y`),
or `""` when there is no colon. -/
def schemeOf (cs : List Char) : List Char :=
  if cs.contains ':' then cs.takeWhile (· ≠ ':') ++ [':'] else []

/-- Everything up to the end of the authority (`https://host` of
`https://host/p/q`), or the whole string when there is no path. -/
def siteRootOf (cs : List Char) : List Char :=
  match cs with
  | 'h' :: 't' :: 't' :: 'p' :: rest =>
    let rest := match rest with
      | 's' :: r => r
      | _ => rest
    match rest with
    | ':' :: '/' :: '/' :: host =>
      "http".data ++ (if cs.get? 4 = some 's' then ['s'] else []) ++
        [':', '/', '/'] ++ host.takeWhile (· ≠ '/')
    | _ => cs.takeWhile (· ≠ '/')
  | _ => cs.takeWhile (· ≠ '/')

/-- Directory part of a URL: everything up to and including the last
slash, or the URL itself when it has no slash. -/
def dirOf (cs : List Char) : List Char :=
  (cs.reverse.dropWhile (· ≠ '/')).reverse

/-- Simplified model of `urllib.parse.urljoin base rel` (line 6 import). -/
def urljoin (base rel : String) : String :=
  if rel = "" then base
  else if startsWithCI "http://" rel.data || startsWithCI "https://" rel.data then rel
  else if startsWithCI "//" rel.data then String.mk (schemeOf base.data) ++ rel
  else if startsWithCI "/" rel.data then String.mk (siteRootOf base.data) ++ rel
  else String.mk (dirOf base.data) ++ rel

/-- Lines 160-161 of `explore_page`: a link not already recognised as an
absolute `www.bbc.com` URL is resolved against the page URL. -/
def resolveLink (pageUrl raw : String) : String :=
  if reRelLinkSearch raw then raw else urljoin pageUrl raw

/-! ## Python values, name lookup and external effects -/

/-- The Python values whose truthiness the modelled expressions inspect. -/
inductive PyVal where
  | none
  | bool (b : Bool)
  deriving DecidableEq, Repr

/-- Python truthiness of the values above (`None` is falsy). -/
def pyTruthy (v : PyVal) : Bool :=
  match v with
  | .none => false
  | .bool b => b

/-- The `wanted_ext` argument of `doc_crawler` / `explore_page`: either a
compiled pattern object (whose `search` is a Boolean test on the string)
or, as in the default `wanted_ext=WANTED_EXT` of line 92, a plain `str`. -/
inductive PyPattern where
  | compiled (test : String → Bool)
  | raw (s : String)

/-- Attribute access `wanted_ext.search(a_href)`: a `str` has no `search`
attribute, so the raw default raises `AttributeError`. -/
def PyPattern.search (p : PyPattern) (s : String) : Except PyErr Bool :=
  match p with
  | .compiled test => .ok (test s)
  | .raw _ => .error .attributeError

/-- The module-level names bound by lines 3-10 and the function
definitions of `doc_crawler.py`.  Line 5 reads `from time import scrapy`,
so the name bound from the `time` module is `scrapy` — `sleep` is never
bound.  (Executing that import would itself raise `ImportError`, since
`time` exports no `scrapy`; the namespace below is the one the module
would have if the import succeeded, which is the reading most favourable
to the code.) -/
def moduleGlobals : List String :=
  ["argv", "stderr", "randint", "scrapy", "urljoin", "requests", "re",
   "logging", "datetime", "WANTED_EXT", "BIN_EXT", "RE_FIND_LINKS",
   "RE_REL_LINK", "RE_CONTENT_TYPE", "run_cmd", "doc_crawler",
   "explore_page", "controlled_sleep", "download_file", "download_files",
   "LOGGING"]

/-- Evaluate a global name, as Python does before calling it. -/
def lookupGlobal (n : String) : Except PyErr Unit :=
  if moduleGlobals.contains n then .ok () else .error .nameError

/-- Lines 176-178, `controlled_sleep(seconds=1, do_random_wait=False)`:
its body is `sleep(randint(1, seconds) if do_random_wait else seconds)`.
Python evaluates the callee `sleep` before the argument; `sleep` is not
among the module's bound names (line 5 imported `scrapy` from `time`),
so the call raises `NameError` and never suspends. -/
def controlled_sleep (seconds : Int) (do_random_wait : Bool) : Except PyErr Unit := do
  let _ ← lookupGlobal "sleep"
  -- on success the call would suspend for `randint(1, seconds)` seconds
  -- when `do_random_wait` else `seconds`; timing is outside the model
  let _ := (seconds, do_random_wait)
  .ok ()

/-- Model of `str(page.content)` (line 133): `page.content` is `bytes`,
and `str` of a bytes object is its repr `b'...'`.  Modelled for printable
ASCII bodies: backslashes, single quotes, newlines, carriage returns and
tabs are escaped, everything else is kept as is. -/
def pyReprEscape (c : Char) : List Char :=
  if c = '\\' then ['\\', '\\']
  else if c = '\'' then ['\\', '\'']
  else if c = '\n' then ['\\', 'n']
  else if c = '\r' then ['\\', 'r']
  else if c = '\t' then ['\\', 't']
  else [c]

/-- The string `explore_page` actually receives for a response body. -/
def pyStrBytes (body : String) : String :=
  "b'" ++ String.mk (body.data.flatMap pyReprEscape) ++ "'"

/-- Observable side effects of a crawl: issued fetches, reported document
URLs (`print(a_href)`), and started downloads (`download_file(a_href)`). -/
inductive Event where
  | fetched (u : String)
  | printed (u : String)
  | downloaded (u : String)
  deriving DecidableEq, Repr

/-- Line 164, `do_dl and download_file(a_href) or print(a_href)`:
`download_file` has no `return`, so it returns `None`, which is falsy;
hence `print` runs even when the download branch ran.  The events are
the evaluation order of the `and`/`or` chain (download assumed to
complete; a raising download would propagate out of `explore_page` and
is outside this claim set). -/
def reportDoc (do_dl : Bool) (a : String) : List Event :=
  if do_dl then
    let dlRet := PyVal.none
    if pyTruthy dlRet then [Event.downloaded a]
    else [Event.downloaded a, Event.printed a]
  else [Event.printed a]

/-! ## `explore_page` (lines 147-173) -/

/-- The four collections threaded through the crawl: the frontier list
`found_pages_list`, and the three membership sets, modelled as lists
(only `in` and `add` are used on them). -/
structure ExploreState where
  found_pages_list : List String
  found_pages_set : List String
  regurgited_pages : List String
  caught_docs : List String
  deriving DecidableEq, Repr

/-- The body of `explore_page`'s `for` loop for one extracted link value
(lines 159-172).  An exception (`wanted_ext.search` on a raw string)
is raised before any collection is mutated. -/
def processLink (base_url page_url : String) (wanted_ext : PyPattern)
    (do_dl : Bool) (st : ExploreState) (raw : String) :
    Except PyErr (ExploreState × List Event) :=
  let a := resolveLink page_url raw
  match wanted_ext.search a with
  | .error e => .error e
  | .ok isDoc =>
    if isDoc && !(st.caught_docs.contains a) then
      .ok ({ st with caught_docs := a :: st.caught_docs }, reportDoc do_dl a)
    else if listContains a.data base_url.data && !(binExtSearch a) then
      if !(st.found_pages_set.contains a) then
        .ok ({ st with found_pages_list := st.found_pages_list ++ [a],
                       found_pages_set := a :: st.found_pages_set }, [])
      else .ok (st, [])
    else if !(st.regurgited_pages.contains a) then
      .ok ({ st with regurgited_pages := a :: st.regurgited_pages }, [])
    else .ok (st, [])

/-- The `for a_href in RE_FIND_LINKS.finditer(page_str)` loop.  The
collections are mutated in place in Python, so when an iteration raises,
the mutations of the earlier iterations persist: the partial state is
returned alongside the exception. -/
def explorePageGo (base_url page_url : String) (wanted_ext : PyPattern)
    (do_dl : Bool) : List String → ExploreState → List Event →
    Option PyErr × ExploreState × List Event
  | [], st, evs => (none, st, evs)
  | raw :: rest, st, evs =>
    match processLink base_url page_url wanted_ext do_dl st raw with
    | .error e => (some e, st, evs)
    | .ok (st', evs') =>
      explorePageGo base_url page_url wanted_ext do_dl rest st' (evs ++ evs')

/-- Lines 147-173, `explore_page`: extract every link of `page_str`,
classify each in turn, and return the grown collections (together with
the exception that escaped, if any, and the emitted report events). -/
def explore_page (base_url page_url page_str : String)
    (wanted_ext : PyPattern) (do_dl : Bool) (st : ExploreState) :
    Option PyErr × ExploreState × List Event :=
  explorePageGo base_url page_url wanted_ext do_dl (extractLinks page_str) st []

/-! ## `doc_crawler` (lines 92-144)

The HTTP transport is out of scope (spec section 1) and is consumed as an
oracle: for each URL, `requests.get` either raises (a transport error) or
yields a response with a status code, a content-type header and a body. -/

/-- Result of `requests.get(page_url, stream=True)`. -/
inductive FetchResult where
  | failure
  | success (status : Nat) (contentType : String) (body : String)

/-- One iteration of the `for page_url in found_pages_list` loop
(lines 121-140), up to but excluding the `single_page` break:

* line 122: `do_wait and controlled_sleep(do_wait, do_random_wait)` —
  when `do_wait` is truthy this raises `NameError` (`sleep` is unbound);
* line 123: `journal.info("tries page " + page_url)` — succeeds;
* lines 124-129: a raising fetch reaches `stderr(e)`; `sys.stderr` is a
  file object, not a callable, so the handler raises `TypeError`;
* lines 130-134: a `200` response whose content-type matches
  `RE_CONTENT_TYPE` is classified via `explore_page` on
  `str(page.content)`;
* lines 135-139: otherwise, with journaling on, the debug message
  `"status code of " + page_url + " : " + page.status_code` concatenates
  `str` with `int` and raises `TypeError`; with journaling off the page
  is skipped silently. -/
def crawlIter (fetch : String → FetchResult) (base_url : String)
    (wanted_ext : PyPattern) (do_dl do_journal : Bool) (do_wait : Int)
    (do_random_wait : Bool) (page_url : String) (st : ExploreState) :
    Option PyErr × ExploreState × List Event :=
  if do_wait ≠ 0 then
    match controlled_sleep do_wait do_random_wait with
    | .error e => (some e, st, [])
    | .ok _ => (none, st, [])
  else
    match fetch page_url with
    | .failure => (some .typeError, st, [Event.fetched page_url])
    | .success status ct body =>
      if status == 200 && reContentTypeSearch ct then
        let (e, st', evs) :=
          explore_page base_url page_url (pyStrBytes body) wanted_ext do_dl st
        (e, st', Event.fetched page_url :: evs)
      else if do_journal then
        (some .typeError, st, [Event.fetched page_url])
      else
        (none, st, [Event.fetched page_url])

/-- The growing-list loop of `doc_crawler`: Python's `for` over
`found_pages_list` re-reads the list each step, so appended entries are
visited too; `i` is the iteration index and the loop ends when it reaches
the current length.  `fuel` bounds the number of iterations so the
recursion is structural; every theorem below holds for every fuel. -/
def crawlLoop (fetch : String → FetchResult) (base_url : String)
    (wanted_ext : PyPattern) (do_dl do_journal : Bool) (do_wait : Int)
    (do_random_wait single_page : Bool) :
    Nat → Nat → ExploreState → List Event → Option PyErr × ExploreState × List Event
  | 0, _, st, evs => (none, st, evs)
  | fuel + 1, i, st, evs =>
    if h : i < st.found_pages_list.length then
      let page_url := st.found_pages_list.get ⟨i, h⟩
      match crawlIter fetch base_url wanted_ext do_dl do_journal do_wait
          do_random_wait page_url st with
      | (some e, st', evs') => (some e, st', evs ++ evs')
      | (none, st', evs') =>
        if single_page then (none, st', evs ++ evs')
        else
          crawlLoop fetch base_url wanted_ext do_dl do_journal do_wait
            do_random_wait single_page fuel (i + 1) st' (evs ++ evs')
    else (none, st, evs)

/-- Lines 92-144, `doc_crawler`: seed the frontier and the seen set with
`base_url` (lines 117-118), run the loop, and (with journaling) log a
final summary, which always formats correctly and is not modelled as an
event. -/
def doc_crawler (fetch : String → FetchResult) (base_url : String)
    (wanted_ext : PyPattern) (do_dl do_journal : Bool) (do_wait : Int)
    (do_random_wait single_page : Bool) (fuel : Nat) :
    Option PyErr × ExploreState × List Event :=
  crawlLoop fetch base_url wanted_ext do_dl do_journal do_wait
    do_random_wait single_page fuel 0
    ⟨[base_url], [base_url], [], []⟩ []

/-- Line 92: the default value of the `wanted_ext` parameter is the raw
pattern string `WANTED_EXT`, not a compiled pattern object. -/
def docCrawlerDefaultWantedExt : PyPattern := PyPattern.raw WANTED_EXT

/-! ## `download_files` (lines 190-212)

File persistence and transport are out of scope; whether a given URL
downloads successfully is an oracle.  Line 198 reads `// * line_nb = 0`,
which is not valid Python (`//` is the floor-division operator, so the
line is a syntax error and the module cannot even be loaded).  The model
reads it in the way most favourable to the code — as if the line were a
comment — which leaves the local `line_nb` unbound: the first
`line_nb += 1` (line 205), or the final tally `print` when every line is
blank (line 212), then raises `UnboundLocalError`.  Independently, the
`except` handler of line 211 calls `stderr(e)` on the non-callable
`sys.stderr` file object, which would raise `TypeError`. -/

/-- Python `line.rstrip('\n')`: remove every trailing newline. -/
def rstripNl (s : String) : String :=
  String.mk (s.data.reverse.dropWhile (· = '\n')).reverse

/-- Outcome of the batch mode: the exception that escaped (if any) and
the lines printed to standard output. -/
structure BatchResult where
  err : Option PyErr
  printed : List String
  deriving DecidableEq, Repr

/-- The `for line in f` loop of `download_files`.  `lineNb` is the local
`line_nb`, `none` while unbound; `downloaded` is `downloaded_files`. -/
def downloadFilesGo (dlOk : String → Bool) :
    List String → Option Nat → Nat → List String → BatchResult
  | [], lineNb, downloaded, out =>
    match lineNb with
    | none => ⟨some .unboundLocalError, out⟩
    | some n =>
      ⟨none, out ++ ["downloaded " ++ toString downloaded ++ " / " ++ toString n]⟩
  | line :: rest, lineNb, downloaded, out =>
    let line := rstripNl line
    if line = "" then downloadFilesGo dlOk rest lineNb downloaded out
    else
      match lineNb with
      | none => ⟨some .unboundLocalError, out⟩
      | some n =>
        let out := out ++ ["download " ++ toString (n + 1) ++ " - " ++ line]
        if dlOk line then downloadFilesGo dlOk rest (some (n + 1)) (downloaded + 1) out
        else ⟨some .typeError, out⟩

/-- Lines 190-212, `download_files`, on the list of raw lines of the URL
file.  (A faithful run never reaches the tally: `line_nb` is unbound.) -/
def download_files (dlOk : String → Bool) (fileLines : List String) : BatchResult :=
  downloadFilesGo dlOk fileLines none 0 []

/-- The same loop with `line_nb` initialised to `0`, i.e. with line 198
read as the assignment its docstring test (`downloaded 3 / 3`) requires.
Used to state what the function's own documentation expects of it. -/
def downloadFilesIntended (dlOk : String → Bool) (fileLines : List String) : BatchResult :=
  downloadFilesGo dlOk fileLines (some 0) 0 []

/-! ## `run_cmd` (lines 18-89) -/

/-- Python `arg.startswith(pre)` (case-sensitive). -/
def pyStartsWith (s pre : String) : Bool := pre.data.isPrefixOf s.data

/-- Python slicing `arg[n:]`. -/
def pyDrop (s : String) (n : Nat) : String := String.mk (s.data.drop n)

/-- Python `int(s)` on a stripped decimal literal: optional sign and at
least one digit, otherwise `ValueError`. -/
def pyInt (s : String) : Except PyErr Int :=
  let core := fun (ds : List Char) =>
    if ds ≠ [] && ds.all Char.isDigit then
      Except.ok (Int.ofNat (ds.foldl (fun n c => n * 10 + (c.toNat - 48)) 0))
    else Except.error PyErr.valueError
  match s.data with
  | '-' :: ds => (core ds).map Int.neg
  | ds => core ds

/-- The arguments `run_cmd` hands to `doc_crawler` on line 89, in the
parameter order of `doc_crawler`'s signature (line 92-93). -/
structure CrawlArgs where
  base_url : String
  wanted_ext : PyPattern
  do_dl : Bool
  do_journal : Bool
  do_wait : Int
  do_random_wait : Bool
  single_page : Bool

/-- How a `run_cmd` invocation ends: one of its `SystemExit`s, an
uncaught exception from argument parsing, or the final `doc_crawler`
call with the given arguments. -/
inductive CmdAction where
  | exitUsage
  | exitHelp
  | exitTest
  | exitAfterFileDownload (url : String) (do_wait : Int) (do_random_wait : Bool)
  | exitAfterFilesDownload (path : String) (do_wait : Int) (do_random_wait : Bool)
  | raised (e : PyErr)
  | crawl (args : CrawlArgs)

/-- Python `True == 1`: the value a `bool` takes when it is bound to an
`int`-valued parameter. -/
def pyBoolInt (b : Bool) : Int := if b then 1 else 0

/-- The `for i, arg in enumerate(argv)` branch chain (lines 50-86),
processed left to right over the arguments after the program name, with
the flag state accumulated so far. -/
def runCmdGo (compileI : String → String → Bool) (argv : List String) :
    List String → String → Bool → Bool → Int → Bool → Bool → CmdAction
  | [], regext, do_dl, do_journal, _do_wait, _do_random_wait, single_page =>
    -- lines 87-89: after the loop
    if argv.length < 2 then CmdAction.exitUsage
    else
      -- line 89: doc_crawler(argv[-1], re.compile(regext, re.I), do_dl,
      -- do_journal, single_page) — five positional arguments, so
      -- single_page is bound to the fifth parameter do_wait, while
      -- do_random_wait and single_page keep their defaults (False)
      CmdAction.crawl ⟨argv.getLastD "", PyPattern.compiled (compileI regext),
        do_dl, do_journal, pyBoolInt single_page, false, false⟩
  | arg :: rest, regext, do_dl, do_journal, do_wait, do_random_wait, single_page =>
    if pyStartsWith arg "--accept" then
      runCmdGo compileI argv rest (pyDrop arg 9) do_dl do_journal do_wait
        do_random_wait single_page
    else if arg = "--download" then
      runCmdGo compileI argv rest regext true do_journal do_wait
        do_random_wait single_page
    else if arg = "--single-page" then
      runCmdGo compileI argv rest regext do_dl do_journal do_wait
        do_random_wait true
    else if arg = "--verbose" then
      runCmdGo compileI argv rest regext do_dl true do_wait
        do_random_wait single_page
    else if pyStartsWith arg "--wait" then
      match pyInt (pyDrop arg 7) with
      | .error e => CmdAction.raised e
      | .ok w =>
        runCmdGo compileI argv rest regext do_dl do_journal w
          do_random_wait single_page
    else if arg = "--no-random-wait" then
      runCmdGo compileI argv rest regext do_dl do_journal do_wait
        false single_page
    else if pyStartsWith arg "http" then
      runCmdGo compileI argv rest regext do_dl do_journal do_wait
        do_random_wait single_page
    else if arg = "--download-file" then
      if argv.length < 3 then CmdAction.exitUsage
      else CmdAction.exitAfterFileDownload (argv.getLastD "") do_wait do_random_wait
    else if arg = "--download-files" then
      if argv.length < 3 then CmdAction.exitUsage
      else CmdAction.exitAfterFilesDownload (argv.getLastD "") do_wait do_random_wait
    else if arg = "--help" then CmdAction.exitHelp
    else if pyStartsWith arg "--test" then CmdAction.exitTest
    else CmdAction.exitUsage

/-- Lines 18-89, `run_cmd(argv)`: parse the flags (the first element of
`argv` is the program name and is skipped) and dispatch.  `re.compile`
over an arbitrary `--accept` pattern is standard-library behaviour and is
consumed as the oracle `compileI` (its value for `WANTED_EXT` is modelled
by `wantedExtCompiled`); the dispatch is independent of it. -/
def runCmd (compileI : String → String → Bool) (argv : List String) : CmdAction :=
  runCmdGo compileI argv (argv.drop 1) WANTED_EXT false false 5 true false

/-! ## Concrete fixtures used by the witnesses and counterexamples -/

/-- The seed URL of the concrete runs. -/
def bbcUrl : String := "https://www.bbc.com"

/-- A same-site document URL: it matches the document pattern and the
same-site page test at once. -/
def pdfUrl : String := "https://www.bbc.com/a.pdf"

/-- A page body that links to the document twice. -/
def bodyTwice : String :=
  "href=\"https://www.bbc.com/a.pdf\" href=\"https://www.bbc.com/a.pdf\""

/-- A page body that links to the document once. -/
def bodyOnce : String := "href=\"https://www.bbc.com/a.pdf\""

/-- Transport oracle: the seed serves `bodyTwice`, every other URL is a
`404` HTML page. -/
def fetchTwice : String → FetchResult := fun u =>
  if u = bbcUrl then FetchResult.success 200 "text/html" bodyTwice
  else FetchResult.success 404 "text/html" ""

/-- Transport oracle: every fetch raises a transport error. -/
def fetchFails : String → FetchResult := fun _ => FetchResult.failure

/-- Transport oracle: every URL answers `404` with an HTML content type. -/
def fetch404 : String → FetchResult := fun u =>
  let _ := u
  FetchResult.success 404 "text/html" ""

/-- The initial crawl state seeded with `bbcUrl` (lines 117-120). -/
def seedState : ExploreState := ⟨[bbcUrl], [bbcUrl], [], []⟩

/-- Download oracle for the batch fixtures: `u2` fails, the rest succeed. -/
def dlOkFixture : String → Bool := fun u => u != "u2"

/-! ## Frontier invariant (support for the at-most-once-enqueue claim) -/

/-- The bookkeeping invariant of the crawl: the frontier list holds no
duplicates, and the seen set holds exactly the frontier's members. -/
def FrontierInv (st : ExploreState) : Prop :=
  st.found_pages_list.Nodup ∧
  ∀ u, st.found_pages_set.contains u = true ↔ u ∈ st.found_pages_list

/-- The `elif` condition of line 165: the resolved URL contains the base
URL and does not match the binary-extension exclusion. -/
def pageBranchTest (base_url a : String) : Bool :=
  listContains a.data base_url.data && !(binExtSearch a)

/-- The three membership collections only ever grow during
classification. -/
def SetsGrow (st st' : ExploreState) : Prop :=
  (∀ u, u ∈ st.caught_docs → u ∈ st'.caught_docs) ∧
  (∀ u, u ∈ st.found_pages_set → u ∈ st'.found_pages_set) ∧
  (∀ u, u ∈ st.regurgited_pages → u ∈ st'.regurgited_pages)

/-- After a classification pass, every extracted link is accounted for:
a link matching the document pattern is in `caught_docs`, and a
non-matching link passing the page test is in `found_pages_set`. -/
def ClassifiedAll (base_url page_url : String) (f : String → Bool)
    (links : List String) (st : ExploreState) : Prop :=
  ∀ raw ∈ links,
    (f (resolveLink page_url raw) = true →
      resolveLink page_url raw ∈ st.caught_docs) ∧
    (f (resolveLink page_url raw) = false →
      pageBranchTest base_url (resolveLink page_url raw) = true →
      resolveLink page_url raw ∈ st.found_pages_set)

theorem frontierInv_processLink {b p : String} {w : PyPattern} {d : Bool}
    {st st' : ExploreState} {raw : String} {evs : List Event}
    (hok : processLink b p w d st raw = Except.ok (st', evs))
    (h : FrontierInv st) : FrontierInv st' := by
  simp only [processLink] at hok
  split at hok
  · simp at hok
  · split at hok
    · simp only [Except.ok.injEq, Prod.mk.injEq] at hok
      obtain ⟨h2, -⟩ := hok
      subst h2
      exact h
    · split at hok
      · split at hok
        · rename_i hset
          simp only [Except.ok.injEq, Prod.mk.injEq] at hok
          obtain ⟨h2, -⟩ := hok
          subst h2
          obtain ⟨hnd, hiff⟩ := h
          constructor
          · simp only [List.nodup_append, List.nodup_cons, List.nodup_nil,
              List.disjoint_singleton]
            refine ⟨hnd, by simp, ?_⟩
            intro hmem
            have h3 := (hiff (resolveLink p raw)).2 hmem
            simp only [Bool.not_eq_true'] at hset
            rw [hset] at h3
            cases h3
          · intro u
            simp only [List.contains_cons, List.mem_append, List.mem_singleton,
              Bool.or_eq_true, beq_iff_eq]
            constructor
            · rintro (h3 | h3)
              · right; exact h3
              · left; exact (hiff u).1 h3
            · rintro (h3 | h3)
              · right; exact (hiff u).2 h3
              · left; exact h3
        · simp only [Except.ok.injEq, Prod.mk.injEq] at hok
          obtain ⟨h2, -⟩ := hok
          subst h2
          exact h
      · split at hok <;>
          (simp only [Except.ok.injEq, Prod.mk.injEq] at hok
           obtain ⟨h2, -⟩ := hok
           subst h2
           exact h)

theorem frontierInv_explorePageGo {b p : String} {w : PyPattern} {d : Bool} :
    ∀ (links : List String) (st : ExploreState) (evs : List Event),
    FrontierInv st →
    FrontierInv (explorePageGo b p w d links st evs).2.1 := by
  intro links
  induction links with
  | nil => intro st evs h; exact h
  | cons raw rest ih =>
    intro st evs h
    simp only [explorePageGo]
    cases hok : processLink b p w d st raw with
    | error e => exact h
    | ok out =>
      obtain ⟨st', evs'⟩ := out
      exact ih st' (evs ++ evs') (frontierInv_processLink hok h)

theorem frontierInv_explore_page (b p body : String) (w : PyPattern) (d : Bool)
    (st : ExploreState) (h : FrontierInv st) :
    FrontierInv (explore_page b p body w d st).2.1 :=
  frontierInv_explorePageGo (extractLinks body) st [] h

theorem frontierInv_crawlIter (fetch : String → FetchResult) (b : String)
    (w : PyPattern) (dd dj : Bool) (dw : Int) (drw : Bool) (u : String)
    (st : ExploreState) (h : FrontierInv st) :
    FrontierInv (crawlIter fetch b w dd dj dw drw u st).2.1 := by
  unfold crawlIter
  split
  · cases controlled_sleep dw drw <;> exact h
  · cases fetch u with
    | failure => exact h
    | success status ct body =>
      by_cases h1 : (status == 200 && reContentTypeSearch ct) = true
      · simpa [h1] using frontierInv_explore_page b u (pyStrBytes body) w dd st h
      · by_cases h2 : dj = true <;> simp [h1, h2, h]

theorem frontierInv_crawlLoop {fetch : String → FetchResult} {b : String}
    {w : PyPattern} {dd dj : Bool} {dw : Int} {drw sp : Bool} :
    ∀ (fuel i : Nat) (st : ExploreState) (evs : List Event),
    FrontierInv st →
    FrontierInv (crawlLoop fetch b w dd dj dw drw sp fuel i st evs).2.1 := by
  intro fuel
  induction fuel with
  | zero => intro i st evs h; exact h
  | succ n ih =>
    intro i st evs h
    simp only [crawlLoop]
    split
    · rename_i hi
      cases hit : crawlIter fetch b w dd dj dw drw
          (st.found_pages_list.get ⟨i, hi⟩) st with
      | mk e out =>
        have hinv : FrontierInv out.1 := by
          have h3 := frontierInv_crawlIter fetch b w dd dj dw drw
            (st.found_pages_list.get ⟨i, hi⟩) st h
          rw [hit] at h3
          exact h3
        obtain ⟨st', evs'⟩ := out
        cases e with
        | none =>
          by_cases hsp : sp = true
          · simp only [hsp, if_true]
            exact hinv
          · simp only [Bool.not_eq_true] at hsp
            subst hsp
            simpa using ih (i + 1) st' (evs ++ evs') hinv
        | some e => exact hinv
    · exact h

/-- At-most-once enqueue, support form: across an entire crawl run (any
transport oracle, any switches, any fuel) the final collections satisfy
the frontier invariant. -/
theorem frontierInv_doc_crawler (fetch : String → FetchResult) (b : String)
    (w : PyPattern) (dd dj : Bool) (dw : Int) (drw sp : Bool) (fuel : Nat) :
    FrontierInv (doc_crawler fetch b w dd dj dw drw sp fuel).2.1 := by
  apply frontierInv_crawlLoop
  constructor
  · simp
  · intro u; simp

/-! ## Monotonicity and idempotence of classification (C2/C3 support) -/

theorem contains_true_iff (l : List String) (a : String) :
    l.contains a = true ↔ a ∈ l := List.elem_iff

theorem setsGrow_refl (st : ExploreState) : SetsGrow st st :=
  ⟨fun _ h => h, fun _ h => h, fun _ h => h⟩

theorem setsGrow_trans {s1 s2 s3 : ExploreState} (h1 : SetsGrow s1 s2)
    (h2 : SetsGrow s2 s3) : SetsGrow s1 s3 :=
  ⟨fun u h => h2.1 u (h1.1 u h), fun u h => h2.2.1 u (h1.2.1 u h),
   fun u h => h2.2.2 u (h1.2.2 u h)⟩

theorem processLink_setsGrow {b p : String} {w : PyPattern} {d : Bool}
    {st st' : ExploreState} {raw : String} {evs : List Event}
    (hok : processLink b p w d st raw = Except.ok (st', evs)) :
    SetsGrow st st' := by
  simp only [processLink] at hok
  split at hok
  · simp at hok
  · split at hok
    · simp only [Except.ok.injEq, Prod.mk.injEq] at hok
      obtain ⟨h2, -⟩ := hok
      subst h2
      exact ⟨fun u h => List.mem_cons_of_mem _ h, fun _ h => h, fun _ h => h⟩
    · split at hok
      · split at hok
        · simp only [Except.ok.injEq, Prod.mk.injEq] at hok
          obtain ⟨h2, -⟩ := hok
          subst h2
          exact ⟨fun _ h => h, fun u h => List.mem_cons_of_mem _ h, fun _ h => h⟩
        · simp only [Except.ok.injEq, Prod.mk.injEq] at hok
          obtain ⟨h2, -⟩ := hok
          subst h2
          exact setsGrow_refl st
      · split at hok
        · simp only [Except.ok.injEq, Prod.mk.injEq] at hok
          obtain ⟨h2, -⟩ := hok
          subst h2
          exact ⟨fun _ h => h, fun _ h => h, fun u h => List.mem_cons_of_mem _ h⟩
        · simp only [Except.ok.injEq, Prod.mk.injEq] at hok
          obtain ⟨h2, -⟩ := hok
          subst h2
          exact setsGrow_refl st

theorem explorePageGo_setsGrow {b p : String} {w : PyPattern} {d : Bool} :
    ∀ (links : List String) (st : ExploreState) (evs : List Event),
    SetsGrow st (explorePageGo b p w d links st evs).2.1 := by
  intro links
  induction links with
  | nil => intro st evs; exact setsGrow_refl st
  | cons raw rest ih =>
    intro st evs
    simp only [explorePageGo]
    cases hok : processLink b p w d st raw with
    | error e => exact setsGrow_refl st
    | ok out =>
      obtain ⟨st', evs'⟩ := out
      exact setsGrow_trans (processLink_setsGrow hok) (ih st' (evs ++ evs'))

theorem processLink_compiled_ok (b p : String) (f : String → Bool) (d : Bool)
    (st : ExploreState) (raw : String) :
    ∃ st' evs, processLink b p (.compiled f) d st raw = Except.ok (st', evs) := by
  simp only [processLink, PyPattern.search]
  split
  · exact ⟨_, _, rfl⟩
  · split
    · split
      · exact ⟨_, _, rfl⟩
      · exact ⟨_, _, rfl⟩
    · split
      · exact ⟨_, _, rfl⟩
      · exact ⟨_, _, rfl⟩

theorem processLink_head_caught {b p : String} {f : String → Bool} {d : Bool}
    {st st' : ExploreState} {raw : String} {evs : List Event}
    (hok : processLink b p (.compiled f) d st raw = Except.ok (st', evs))
    (hf : f (resolveLink p raw) = true) :
    resolveLink p raw ∈ st'.caught_docs := by
  by_cases hc : st.caught_docs.contains (resolveLink p raw) = true
  · exact (processLink_setsGrow hok).1 _ ((contains_true_iff _ _).1 hc)
  · simp only [Bool.not_eq_true] at hc
    simp only [processLink, PyPattern.search, hf, hc] at hok
    simp at hok
    obtain ⟨h2, -⟩ := hok
    subst h2
    exact List.mem_cons_self _ _

theorem processLink_head_page {b p : String} {f : String → Bool} {d : Bool}
    {st st' : ExploreState} {raw : String} {evs : List Event}
    (hok : processLink b p (.compiled f) d st raw = Except.ok (st', evs))
    (hf : f (resolveLink p raw) = false)
    (hpt : pageBranchTest b (resolveLink p raw) = true) :
    resolveLink p raw ∈ st'.found_pages_set := by
  by_cases hs : st.found_pages_set.contains (resolveLink p raw) = true
  · exact (processLink_setsGrow hok).2.1 _ ((contains_true_iff _ _).1 hs)
  · simp only [Bool.not_eq_true] at hs
    have hpt' : (listContains (resolveLink p raw).data b.data &&
        !(binExtSearch (resolveLink p raw))) = true := hpt
    simp only [processLink, PyPattern.search, hf, hpt', hs] at hok
    simp at hok
    obtain ⟨h2, -⟩ := hok
    subst h2
    exact List.mem_cons_self _ _

theorem classifiedAll_mono {b p : String} {f : String → Bool}
    {st st' : ExploreState} {links : List String} (hg : SetsGrow st st')
    (h : ClassifiedAll b p f links st) : ClassifiedAll b p f links st' := by
  intro raw hr
  obtain ⟨h1, h2⟩ := h raw hr
  exact ⟨fun hf => hg.1 _ (h1 hf), fun hf hp => hg.2.1 _ (h2 hf hp)⟩

theorem classifiedAll_after (b p : String) (f : String → Bool) (d : Bool) :
    ∀ (links : List String) (st : ExploreState) (evs : List Event),
    ClassifiedAll b p f links (explorePageGo b p (.compiled f) d links st evs).2.1 := by
  intro links
  induction links with
  | nil => intro st evs raw hr; cases hr
  | cons raw rest ih =>
    intro st evs
    obtain ⟨st', evs', hok⟩ := processLink_compiled_ok b p f d st raw
    simp only [explorePageGo, hok]
    intro raw' hr'
    rcases List.mem_cons.1 hr' with h | h
    · subst h
      have hgrow : SetsGrow st'
          (explorePageGo b p (.compiled f) d rest st' (evs ++ evs')).2.1 :=
        explorePageGo_setsGrow rest st' (evs ++ evs')
      constructor
      · intro hf
        exact hgrow.1 _ (processLink_head_caught hok hf)
      · intro hf hpt
        exact hgrow.2.1 _ (processLink_head_page hok hf hpt)
    · exact ih st' (evs ++ evs') raw' h

theorem processLink_idem_step (b p : String) (f : String → Bool) (d : Bool)
    (st : ExploreState) (raw : String)
    (H1 : f (resolveLink p raw) = true → resolveLink p raw ∈ st.caught_docs)
    (H2 : f (resolveLink p raw) = false →
      pageBranchTest b (resolveLink p raw) = true →
      resolveLink p raw ∈ st.found_pages_set) :
    ∃ st', processLink b p (.compiled f) d st raw = Except.ok (st', []) ∧
      (st'.found_pages_list = st.found_pages_list ∨
        (st'.found_pages_list = st.found_pages_list ++ [resolveLink p raw] ∧
          f (resolveLink p raw) = true)) := by
  have hb1 : (f (resolveLink p raw) &&
      !(st.caught_docs.contains (resolveLink p raw))) = false := by
    cases hf : f (resolveLink p raw) with
    | false => simp
    | true =>
      have hm : resolveLink p raw ∈ st.caught_docs := H1 hf
      simp [hm]
  simp only [processLink, PyPattern.search, hb1, Bool.false_eq_true, if_false]
  by_cases hpt : pageBranchTest b (resolveLink p raw) = true
  · have hpt' : (listContains (resolveLink p raw).data b.data &&
        !(binExtSearch (resolveLink p raw))) = true := hpt
    simp only [hpt', if_true, if_pos rfl]
    cases hin : st.found_pages_set.contains (resolveLink p raw) with
    | true => simp only [Bool.not_true, Bool.false_eq_true, if_false]
              exact ⟨st, rfl, Or.inl rfl⟩
    | false =>
      cases hf : f (resolveLink p raw) with
      | true =>
        simp only [Bool.not_false, if_pos rfl]
        exact ⟨_, rfl, Or.inr ⟨rfl, by simp [hf]⟩⟩
      | false =>
        have : st.found_pages_set.contains (resolveLink p raw) = true :=
          (contains_true_iff _ _).2 (H2 hf hpt)
        rw [hin] at this
        cases this
  · have hpt' : (listContains (resolveLink p raw).data b.data &&
        !(binExtSearch (resolveLink p raw))) = false := by
      simpa [pageBranchTest] using hpt
    simp only [hpt', Bool.false_eq_true, if_false]
    cases hr : st.regurgited_pages.contains (resolveLink p raw) with
    | true =>
      simp only [hr, Bool.not_true, Bool.false_eq_true, if_false]
      exact ⟨st, rfl, Or.inl rfl⟩
    | false =>
      simp only [hr, Bool.not_false, if_pos rfl]
      exact ⟨_, rfl, Or.inl rfl⟩

theorem explorePageGo_idem (b p : String) (f : String → Bool) (d : Bool) :
    ∀ (links : List String) (st : ExploreState) (evs : List Event),
    ClassifiedAll b p f links st →
    (explorePageGo b p (.compiled f) d links st evs).2.2 = evs ∧
    ∃ new, (explorePageGo b p (.compiled f) d links st evs).2.1.found_pages_list =
        st.found_pages_list ++ new ∧ ∀ u ∈ new, f u = true := by
  intro links
  induction links with
  | nil =>
    intro st evs H
    exact ⟨rfl, [], by simp [explorePageGo], by simp⟩
  | cons raw rest ih =>
    intro st evs H
    obtain ⟨H1, H2⟩ := H raw (List.mem_cons_self _ _)
    obtain ⟨st', hok, hlist⟩ := processLink_idem_step b p f d st raw H1 H2
    simp only [explorePageGo, hok]
    have Hrest : ClassifiedAll b p f rest st' :=
      classifiedAll_mono (processLink_setsGrow hok)
        (fun raw' h' => H raw' (List.mem_cons_of_mem _ h'))
    obtain ⟨hev, new, hnew, hfnew⟩ := ih st' (evs ++ []) Hrest
    refine ⟨by simpa using hev, ?_⟩
    rcases hlist with h | ⟨h, hf⟩
    · exact ⟨new, by rw [hnew, h], hfnew⟩
    · refine ⟨resolveLink p raw :: new, ?_, ?_⟩
      · rw [hnew, h]; simp
      · intro u hu
        rcases List.mem_cons.1 hu with h' | h'
        · subst h'; exact hf
        · exact hfnew u h'

/-! # The claims -/

/-- C1 (confirmed).  At-most-once enqueue: over an entire crawl run
started from any seed URL — any transport oracle, any switches, any
number of loop iterations — the frontier `found_pages_list` never holds
a URL twice, and the seen set `found_pages_set` holds exactly the URLs
ever placed in the frontier. -/
theorem c1_at_most_once_enqueue (fetch : String → FetchResult)
    (seed : String) (wanted_ext : PyPattern) (do_dl do_journal : Bool)
    (do_wait : Int) (do_random_wait single_page : Bool) (fuel : Nat) :
    let st := (doc_crawler fetch seed wanted_ext do_dl do_journal do_wait
        do_random_wait single_page fuel).2.1
    st.found_pages_list.Nodup ∧
      ∀ u, st.found_pages_set.contains u = true ↔ u ∈ st.found_pages_list := by
  intro st
  exact frontierInv_doc_crawler fetch seed wanted_ext do_dl do_journal do_wait
    do_random_wait single_page fuel

/-- C2 counterexample.  A crawl of a page that links twice to
`https://www.bbc.com/a.pdf` — a URL that matches the document-suffix
pattern and passes the same-site page test — ends with that URL appended
to the frontier: the second encounter finds it already in `caught_docs`,
so the document branch is skipped and the page branch enqueues it. -/
theorem c2_counterexample :
    wantedExtCompiled pdfUrl = true ∧
    pageBranchTest bbcUrl pdfUrl = true ∧
    pdfUrl ∈ (doc_crawler fetchTwice bbcUrl (.compiled wantedExtCompiled)
        false false 0 false false 10).2.1.found_pages_list := by
  refine ⟨rfl, rfl, ?_⟩
  decide

/-- C2 (corrected).  Document precedence holds only for links whose
resolved URL is not already in `caught_docs`: such a link is classified
as Document (added to `caught_docs`, reported) and is not appended to
the frontier — the frontier and the seen set are left unchanged.  (A URL
already in `caught_docs` instead falls through to the page test and may
be enqueued, as the counterexample shows.) -/
theorem c2_document_precedence_amended (base_url page_url : String)
    (f : String → Bool) (do_dl : Bool) (st : ExploreState) (raw : String)
    (hdoc : f (resolveLink page_url raw) = true)
    (hnew : st.caught_docs.contains (resolveLink page_url raw) = false) :
    ∃ st' evs, processLink base_url page_url (.compiled f) do_dl st raw =
        Except.ok (st', evs) ∧
      st'.found_pages_list = st.found_pages_list ∧
      st'.found_pages_set = st.found_pages_set ∧
      resolveLink page_url raw ∈ st'.caught_docs := by
  have hmem : resolveLink page_url raw ∉ st.caught_docs := by
    intro hm
    rw [(contains_true_iff _ _).2 hm] at hnew
    cases hnew
  refine ⟨{ st with caught_docs := resolveLink page_url raw :: st.caught_docs },
    reportDoc do_dl (resolveLink page_url raw), ?_, rfl, rfl,
    List.mem_cons_self _ _⟩
  simp [processLink, PyPattern.search, hdoc, hmem]

/-- Witness for the amended document-precedence theorem at a concrete
input: the fixture document URL on the seeded state. -/
theorem c2_document_precedence_amended_witness :
    wantedExtCompiled (resolveLink bbcUrl pdfUrl) = true ∧
    seedState.caught_docs.contains (resolveLink bbcUrl pdfUrl) = false ∧
    ∃ st' evs, processLink bbcUrl bbcUrl (.compiled wantedExtCompiled) false
        seedState pdfUrl = Except.ok (st', evs) ∧
      st'.found_pages_list = seedState.found_pages_list ∧
      st'.found_pages_set = seedState.found_pages_set ∧
      resolveLink bbcUrl pdfUrl ∈ st'.caught_docs :=
  ⟨by decide, by decide,
    c2_document_precedence_amended bbcUrl bbcUrl wantedExtCompiled false
      seedState pdfUrl (by decide) (by decide)⟩

/-- C3 counterexample.  Running `explore_page` a second time on the same
body, starting from the collections produced by the first run, appends a
new frontier entry: the document caught in the first run re-resolves to
a URL that is now in `caught_docs`, falls through to the page branch and
is enqueued. -/
theorem c3_counterexample :
    (explore_page bbcUrl bbcUrl bodyOnce (.compiled wantedExtCompiled) false
        seedState).2.1.found_pages_list = [bbcUrl] ∧
    (explore_page bbcUrl bbcUrl bodyOnce (.compiled wantedExtCompiled) false
        (explore_page bbcUrl bbcUrl bodyOnce (.compiled wantedExtCompiled)
          false seedState).2.1).2.1.found_pages_list = [bbcUrl, pdfUrl] :=
  ⟨rfl, rfl⟩

/-- C3 (corrected).  Idempotence holds up to already-caught documents:
re-running `explore_page` on the same body from the first run's
collections reports and downloads nothing (it emits no events at all),
and every frontier entry it appends is a URL matching the document
pattern (one already in `caught_docs`); in particular, when no extracted
link matches the document pattern the second run appends nothing. -/
theorem c3_idempotent_amended (base_url page_url body : String)
    (f : String → Bool) (do_dl : Bool) (st0 : ExploreState) :
    (explore_page base_url page_url body (.compiled f) do_dl
        (explore_page base_url page_url body (.compiled f) do_dl
          st0).2.1).2.2 = [] ∧
    ∃ new, (explore_page base_url page_url body (.compiled f) do_dl
        (explore_page base_url page_url body (.compiled f) do_dl
          st0).2.1).2.1.found_pages_list =
      (explore_page base_url page_url body (.compiled f) do_dl
        st0).2.1.found_pages_list ++ new ∧
      ∀ u ∈ new, f u = true := by
  have H : ClassifiedAll base_url page_url f (extractLinks body)
      (explore_page base_url page_url body (.compiled f) do_dl st0).2.1 :=
    classifiedAll_after base_url page_url f do_dl (extractLinks body) st0 []
  exact explorePageGo_idem base_url page_url f do_dl (extractLinks body) _ [] H

/-- C4 (code_bug).  On a transport-level fetch failure the `except`
handler evaluates `stderr(e)`; `sys.stderr` is a file object, not a
callable, so the handler raises `TypeError` and the crawl aborts after
the first failed fetch instead of continuing with the next frontier
entry (here with journaling enabled, so `journal.error(e)` did run
first). -/
theorem c4_fetch_error_fatal :
    doc_crawler fetchFails bbcUrl (.compiled wantedExtCompiled) false true 0
        false false 10 =
      (some PyErr.typeError, seedState, [Event.fetched bbcUrl]) := rfl

/-- C5 (code_bug).  A non-success response is skipped silently when
journaling is off, but with journaling on the debug call concatenates
the page URL string with the integer `page.status_code` and raises
`TypeError`, aborting the crawl instead of proceeding to the next
frontier entry. -/
theorem c5_status_log_typeerror :
    (doc_crawler fetch404 bbcUrl (.compiled wantedExtCompiled) false true 0
        false false 10).1 = some PyErr.typeError ∧
    doc_crawler fetch404 bbcUrl (.compiled wantedExtCompiled) false false 0
        false false 10 =
      (none, seedState, [Event.fetched bbcUrl]) :=
  ⟨rfl, rfl⟩

/-- C6 (code_bug).  `run_cmd` calls `doc_crawler` with five positional
arguments, so the parsed `--single-page` flag is bound to the fifth
parameter `do_wait` while `single_page` keeps its default `False`: the
dispatched crawl arguments carry `do_wait = 1` and `single_page = false`.
Running `doc_crawler` with exactly those switches, the truthy `do_wait`
invokes `controlled_sleep`, which raises `NameError` (`sleep` was never
imported) before any fetch — the crawl neither stops after the seed nor
reports the seed page's documents. -/
theorem c6_single_page_flag_lost (compileI : String → String → Bool) :
    runCmd compileI ["doc_crawler.py", "--single-page", "https://www.bbc.com"] =
      CmdAction.crawl ⟨"https://www.bbc.com",
        PyPattern.compiled (compileI WANTED_EXT), false, false, 1, false, false⟩ ∧
    doc_crawler fetchTwice bbcUrl (.compiled wantedExtCompiled) false false 1
        false false 10 = (some PyErr.nameError, seedState, []) :=
  ⟨rfl, rfl⟩

/-- C7 (code_bug).  Whenever waiting is enabled (`do_wait` truthy), the
pre-fetch call to `controlled_sleep` raises `NameError` — `sleep` was
never imported (line 5 reads `from time import scrapy`) — so the
suspension never completes normally and the run aborts with no fetch
ever issued. -/
theorem c7_pacing_nameerror (fetch : String → FetchResult) (seed : String)
    (wanted_ext : PyPattern) (do_dl do_journal : Bool) (do_wait : Int)
    (do_random_wait single_page : Bool) (fuel : Nat) (h : do_wait ≠ 0) :
    doc_crawler fetch seed wanted_ext do_dl do_journal do_wait do_random_wait
        single_page (fuel + 1) =
      (some PyErr.nameError, ⟨[seed], [seed], [], []⟩, []) := by
  have hiter : crawlIter fetch seed wanted_ext do_dl do_journal do_wait
      do_random_wait seed ⟨[seed], [seed], [], []⟩ =
      (some PyErr.nameError, ⟨[seed], [seed], [], []⟩, []) := by
    unfold crawlIter
    rw [if_pos h]
    rfl
  simp only [doc_crawler, crawlLoop]
  rw [dif_pos (by simp : (0 : Nat) <
    (ExploreState.mk [seed] [seed] [] []).found_pages_list.length)]
  simp only [List.get]
  rw [hiter]
  rfl

/-- Witness for the pacing theorem at a concrete waiting time. -/
theorem c7_pacing_nameerror_witness :
    (5 : Int) ≠ 0 ∧
    doc_crawler fetchTwice bbcUrl (.compiled wantedExtCompiled) false false 5
        false false 10 = (some PyErr.nameError, seedState, []) :=
  ⟨by decide, c7_pacing_nameerror fetchTwice bbcUrl (.compiled wantedExtCompiled)
    false false 5 false false 9 (by decide)⟩

/-- C8 (code_bug).  The batch downloader never reports a
`downloaded X / Y` tally: as written (`line_nb` left unbound by the
invalid line 198) it raises `UnboundLocalError` before printing
anything; and even with `line_nb` initialised, the failing URL's
`except` handler calls the non-callable `sys.stderr`, raising
`TypeError`, so the 3-line fixture with one failure stops after two
progress lines instead of reporting `downloaded 2 / 3`. -/
theorem c8_batch_tally_never_printed :
    download_files dlOkFixture ["u1\n", "u2\n", "u3\n"] =
      ⟨some PyErr.unboundLocalError, []⟩ ∧
    downloadFilesIntended dlOkFixture ["u1\n", "u2\n", "u3\n"] =
      ⟨some PyErr.typeError, ["download 1 - u1", "download 2 - u2"]⟩ :=
  ⟨rfl, rfl⟩

/-- C9 (confirmed, implicit claim).  A `doc_crawler` call that leaves
`wanted_ext` at its default — the raw string `WANTED_EXT` — aborts with
`AttributeError` as soon as a successfully fetched HTML page yields at
least one extracted link, because `wanted_ext.search(a_href)` is
attribute access on a plain `str`. -/
theorem c9_default_pattern_attributeerror (fetch : String → FetchResult)
    (seed ct body : String) (do_dl do_journal : Bool)
    (do_random_wait single_page : Bool) (fuel : Nat)
    (hf : fetch seed = FetchResult.success 200 ct body)
    (hct : reContentTypeSearch ct = true)
    (hlinks : extractLinks (pyStrBytes body) ≠ []) :
    (doc_crawler fetch seed docCrawlerDefaultWantedExt do_dl do_journal 0
        do_random_wait single_page (fuel + 1)).1 = some PyErr.attributeError := by
  have hexp : ∀ (l : List String) (st : ExploreState), l ≠ [] →
      explorePageGo seed seed (.raw WANTED_EXT) do_dl l st [] =
        (some PyErr.attributeError, st, []) := by
    intro l st hl
    cases l with
    | nil => cases hl rfl
    | cons a rest => simp [explorePageGo, processLink, PyPattern.search]
  have hiter : crawlIter fetch seed docCrawlerDefaultWantedExt do_dl do_journal
      0 do_random_wait seed ⟨[seed], [seed], [], []⟩ =
      (some PyErr.attributeError, ⟨[seed], [seed], [], []⟩,
        [Event.fetched seed]) := by
    unfold crawlIter
    rw [if_neg (by simp : ¬((0 : Int) ≠ 0))]
    simp only [hf]
    have h200 : ((200 : Nat) == 200 && reContentTypeSearch ct) = true := by
      simp [hct]
    rw [if_pos h200]
    simp only [explore_page, docCrawlerDefaultWantedExt]
    rw [hexp (extractLinks (pyStrBytes body)) _ hlinks]
  simp only [doc_crawler, crawlLoop]
  rw [dif_pos (by simp : (0 : Nat) <
    (ExploreState.mk [seed] [seed] [] []).found_pages_list.length)]
  simp only [List.get]
  rw [hiter]

/-- Witness for the default-pattern theorem on the concrete fixture. -/
theorem c9_default_pattern_attributeerror_witness :
    fetchTwice bbcUrl = FetchResult.success 200 "text/html" bodyTwice ∧
    reContentTypeSearch "text/html" = true ∧
    extractLinks (pyStrBytes bodyTwice) ≠ [] ∧
    (doc_crawler fetchTwice bbcUrl docCrawlerDefaultWantedExt false false 0
        false false 10).1 = some PyErr.attributeError :=
  ⟨rfl, by decide, by decide,
    c9_default_pattern_attributeerror fetchTwice bbcUrl "text/html" bodyTwice
      false false false false 9 rfl (by decide) (by decide)⟩

/-- C10 (confirmed, implicit claim).  Every link classified as Document
is printed, whether or not downloading is enabled: `do_dl and
download_file(a_href) or print(a_href)` always reaches `print` because
`download_file` returns the falsy `None`; the download event occurs
exactly when `do_dl` is set. -/
theorem c10_documents_always_printed (base_url page_url : String)
    (f : String → Bool) (do_dl : Bool) (st : ExploreState) (raw : String)
    (hdoc : f (resolveLink page_url raw) = true)
    (hnew : st.caught_docs.contains (resolveLink page_url raw) = false) :
    ∃ st' evs, processLink base_url page_url (.compiled f) do_dl st raw =
        Except.ok (st', evs) ∧
      Event.printed (resolveLink page_url raw) ∈ evs ∧
      (Event.downloaded (resolveLink page_url raw) ∈ evs ↔ do_dl = true) := by
  have hmem : resolveLink page_url raw ∉ st.caught_docs := by
    intro hm
    rw [(contains_true_iff _ _).2 hm] at hnew
    cases hnew
  refine ⟨{ st with caught_docs := resolveLink page_url raw :: st.caught_docs },
    reportDoc do_dl (resolveLink page_url raw), ?_, ?_, ?_⟩
  · simp [processLink, PyPattern.search, hdoc, hmem]
  · cases do_dl <;> simp [reportDoc, pyTruthy]
  · cases do_dl <;> simp [reportDoc, pyTruthy]

/-- Witness for the always-printed theorem at a concrete input with
downloading enabled. -/
theorem c10_documents_always_printed_witness :
    wantedExtCompiled (resolveLink bbcUrl pdfUrl) = true ∧
    seedState.caught_docs.contains (resolveLink bbcUrl pdfUrl) = false ∧
    ∃ st' evs, processLink bbcUrl bbcUrl (.compiled wantedExtCompiled) true
        seedState pdfUrl = Except.ok (st', evs) ∧
      Event.printed (resolveLink bbcUrl pdfUrl) ∈ evs ∧
      (Event.downloaded (resolveLink bbcUrl pdfUrl) ∈ evs ↔ true = true) :=
  ⟨by decide, by decide,
    c10_documents_always_printed bbcUrl bbcUrl wantedExtCompiled true
      seedState pdfUrl (by decide) (by decide)⟩

end DocCrawler
